import Mathlib

/-!
Verification of the orchestration core of the langgraph_code_generator
repository: the shared state schema with per-field merge rules
(orchestration.py, CodeGenerationState), the five stage runs
(agents/code_generator.py, agents/test_generator.py,
agents/code_executor.py, agents/code_reviewer.py,
agents/code_packager.py), the two routing functions and the edge table
(orchestration.py, CodeGeneratorModule._create_workflow), the run loop,
and the run controller (CodeGeneratorModule.generate_module).

Modelling conventions.  Python dictionaries are association lists over
string keys (PyDict); Python truthiness is the function truthy.  Calls
to external collaborators (the generative model, the e2b sandbox, the
xml and ast standard libraries, html escaping) are supplied per stage
invocation by an environment record, universally quantified in the
theorems; the post-call control flow of each stage is translated from
the source.  Exceptions are Except.error values.  The engine is the
fuel-indexed loop runLoop over the static edge table and the two
routers of _create_workflow, exactly as langgraph drives this graph:
invoke the node, merge the returned partial update field by field with
the declared reducer, then transition by the edge table.
-/

/-- A Python value as it appears in the state dictionaries of this
pipeline: booleans, strings, None, and nested dictionaries. -/
inductive PyVal where
  | vBool (b : Bool)
  | vStr (s : String)
  | vNone
  | vDict (d : List (String × PyVal))

/-- A Python dictionary with string keys, as an association list whose
first binding for a key is the visible one. -/
abbrev PyDict := List (String × PyVal)

/-- Python truthiness of a value (bool(v)). -/
def truthy : PyVal → Bool
  | .vBool b => b
  | .vStr s => !(s == "")
  | .vNone => false
  | .vDict d => !d.isEmpty

/-- Dictionary lookup: d.get(k) as an Option. -/
def dget (d : PyDict) (k : String) : Option PyVal :=
  (d.find? (fun p => p.1 == k)).map Prod.snd

/-- Dictionary lookup with default: d.get(k, dflt). -/
def dgetD (d : PyDict) (k : String) (dflt : PyVal) : PyVal :=
  (dget d k).getD dflt

/-- From orchestration.py take_latest_reducer: the reducer that takes
the latest value between two strings. -/
def take_latest_reducer (a b : String) : String := b

/-- From orchestration.py dict_merge_reducer: merges two dictionaries
with values from b taking precedence (Python dict union, b over a). -/
def dict_merge_reducer (a b : PyDict) : PyDict :=
  a.filter (fun p => !(b.any (fun q => q.1 == p.1))) ++ b

/-- From orchestration.py: MAX_RETRIES, the maximum number of
generation attempts, shared by both routing functions. -/
def MAX_RETRIES : Nat := 3

/-- The terminal marker for the pipeline: routing to it ends the run
(langgraph END; the stages write the same marker into the next field
as the literal string END). -/
def ENDMARK : String := "END"

/-- The shared pipeline state, from orchestration.py
CodeGenerationState.  messages carries the seed prompt messages (only
their text content matters to the core); the reducer annotations of
the TypedDict are realised in applyUpdate. -/
structure GState where
  messages : List String
  code : String
  test_cases : PyDict
  execution_result : PyDict
  review_result : PyDict
  next : String
  attempts : Nat

/-- A partial update returned by a stage: only the fields the stage
wrote are present.  package_info is written by the package stage but
is not a declared channel of CodeGenerationState, so the merge drops
it. -/
structure Update where
  messages : Option (List String) := none
  code : Option String := none
  test_cases : Option PyDict := none
  execution_result : Option PyDict := none
  review_result : Option PyDict := none
  next : Option String := none
  attempts : Option Nat := none
  package_info : Option PyDict := none

/-- Merge a partial update into the state, applying the per-field
reducer declared in CodeGenerationState: operator.add on messages
(concatenation) and on attempts (the incoming value is a delta),
take_latest_reducer on code and next, dict_merge_reducer on the three
dictionary fields.  Fields absent from the update are carried over. -/
def applyUpdate (s : GState) (u : Update) : GState where
  messages := match u.messages with
    | some m => s.messages ++ m
    | none => s.messages
  code := match u.code with
    | some c => take_latest_reducer s.code c
    | none => s.code
  test_cases := match u.test_cases with
    | some d => dict_merge_reducer s.test_cases d
    | none => s.test_cases
  execution_result := match u.execution_result with
    | some d => dict_merge_reducer s.execution_result d
    | none => s.execution_result
  review_result := match u.review_result with
    | some d => dict_merge_reducer s.review_result d
    | none => s.review_result
  next := match u.next with
    | some n => take_latest_reducer s.next n
    | none => s.next
  attempts := match u.attempts with
    | some d => s.attempts + d
    | none => s.attempts

/-- From orchestration.py route_after_execute: the conditional edge
after the execute node. -/
def route_after_execute (state : GState) : String :=
  if truthy (dgetD state.execution_result "success" (.vBool false)) then
    "review"
  else if state.attempts ≥ MAX_RETRIES then
    ENDMARK
  else
    "generate"

/-- From orchestration.py route_after_review: the conditional edge
after the review node. -/
def route_after_review (state : GState) : String :=
  if truthy (dgetD state.review_result "approved" (.vBool false)) then
    "package"
  else if state.attempts ≥ MAX_RETRIES then
    ENDMARK
  else
    "generate"

/-- The registered stage names, from AGENT_REGISTRY in
agents/__init__.py (insertion order of the registry). -/
def list_agents : List String :=
  ["generate", "generate_sample_data", "execute", "review", "package"]

/-- A file element of a parsed project XML document, as the stages see
it: the text of its name child and of its content child, none when the
child is missing or has no text (in Python, reading .text of a missing
child or stripping a None text raises AttributeError). -/
structure FileElem where
  name : Option String
  content : Option String

/-- The whitespace characters Python str.strip removes. -/
def pyWhite (c : Char) : Bool :=
  c == ' ' || c == '\t' || c == '\n' || c == '\r' || c == '\x0b' || c == '\x0c'

/-- Python str.strip: remove leading and trailing whitespace. -/
def py_strip (s : String) : String :=
  ⟨((s.data.dropWhile pyWhite).reverse.dropWhile pyWhite).reverse⟩

/-- Whether the first list is a prefix of the second. -/
def listPre : List Char → List Char → Bool
  | [], _ => true
  | _ :: _, [] => false
  | p :: ps, c :: cs => p == c && listPre ps cs

/-- Python str.endswith. -/
def py_endswith (s suffix : String) : Bool :=
  listPre suffix.data.reverse s.data.reverse

/-- The characters after the first occurrence of a marker, if the
marker occurs (Python s.find(m) + slicing past the marker). -/
def afterFirstList (m : List Char) : List Char → Option (List Char)
  | [] => if m.isEmpty then some [] else none
  | c :: cs =>
    if listPre m (c :: cs) then some ((c :: cs).drop m.length)
    else afterFirstList m cs

/-- The characters before the first occurrence of a marker, if the
marker occurs (Python s.find(m) + slicing up to the marker). -/
def beforeFirstList (m : List Char) : List Char → Option (List Char)
  | [] => if m.isEmpty then some [] else none
  | c :: cs =>
    if listPre m (c :: cs) then some []
    else (beforeFirstList m cs).map (fun r => c :: r)

/-- Python substring containment, sub in s. -/
def py_in (sub s : String) : Bool := (afterFirstList sub.data s.data).isSome

/-- Python str.lower (the stages only compare ASCII markers). -/
def py_lower (s : String) : String := ⟨s.data.map Char.toLower⟩

/-- Inner loop of _extract_test_data: try each (start marker, end
marker) pair in order; on the first start marker present in the
prompt, return the stripped text between the markers (to the end when
the end marker is empty or absent). -/
def extract_test_data_go : List (String × String) → String → String
  | [], _ => ""
  | (sm, em) :: rest, prompt =>
    match afterFirstList sm.data prompt.data with
    | some after =>
      if em == "" then py_strip ⟨after⟩
      else
        match beforeFirstList em.data after with
        | some r => py_strip ⟨r⟩
        | none => py_strip ⟨after⟩
    | none => extract_test_data_go rest prompt

/-- From agents/test_generator.py TestGeneratorAgent._extract_test_data:
extract embedded test data from the request prompt. -/
def extract_test_data (prompt : String) : String :=
  extract_test_data_go
    [("TEST DATA:", ""), ("SAMPLE DATA:", ""), ("TEST CASES:", ""),
     ("```python", "```")] prompt

/-- One iteration of the generation retry loop of
CodeGeneratorAgent.run, described by what the external model call
produced: an exception (caught by the loop), or a response text —
given here already content-escaped — together with the verdict of
_is_valid_xml on it. -/
inductive GenTry where
  | fault (msg : String)
  | resp (escaped : String) (valid : Bool)

/-- The first valid response among the retry iterations, if any. -/
def firstValid : List GenTry → Option String
  | [] => none
  | .resp t true :: _ => some t
  | _ :: rest => firstValid rest

/-- From agents/code_generator.py CodeGeneratorAgent.run: read the
latest message (uncaught IndexError when there is none), then try the
model up to three times, returning the first content-escaped response
that _is_valid_xml accepts with next = "execute", and otherwise the
placeholder project with next = "END"; both branches report
attempts + 1 computed from the current state, which the schema then
feeds to the additive attempts reducer. -/
def generateRun (tries : List GenTry) (state : GState) : Except String Update :=
  match state.messages.getLast? with
  | none => .error "IndexError: list index out of range"
  | some _ =>
    let attempts := state.attempts
    match firstValid (tries.take 3) with
    | some escaped_response =>
      .ok { code := some escaped_response, next := some "execute",
            attempts := some (attempts + 1) }
    | none =>
      .ok { code := some "<project><files/><requirements/></project>",
            next := some "END", attempts := some (attempts + 1) }

/-- External collaborators of one TestGeneratorAgent.run invocation:
the xml parse of state.code (none = ET.ParseError), html unescaping,
the ast syntax check (some d = the error detail dictionary), the
model-backed test-code production for a file content (internal model
faults are already converted to an empty string inside
_generate_test_code), and the xml serialisation of the produced test
files. -/
structure TGEnv where
  parse : Option (List FileElem)
  unescape : String → String
  synErr : String → Option PyDict
  testCode : String → String
  serialize : List (String × String) → String

/-- The per-file loop of TestGeneratorAgent.run over the parsed file
elements, accumulating (test filename, test code) pairs: a missing
name or content text raises (uncaught AttributeError), non-Python
files are skipped, and the first syntax-error file short-circuits with
next = "test_generation". -/
def tgLoop (env : TGEnv) (existing : String) :
    List FileElem → List (String × String) → Except String Update
  | [], acc =>
    .ok { test_cases := some [("code", .vStr (env.serialize acc.reverse)),
                              ("original_data", .vStr existing)],
          next := some "execute" }
  | f :: rest, acc =>
    match f.name with
    | none => .error "AttributeError: NoneType object has no attribute text"
    | some nm =>
      let filename := py_strip nm
      if !(py_endswith filename ".py") then tgLoop env existing rest acc
      else match f.content with
        | none => .error "AttributeError: NoneType object has no attribute text"
        | some c =>
          let content := env.unescape (py_strip c)
          match env.synErr content with
          | some errD =>
            .ok { test_cases := some [("code", .vStr ""),
                                      ("original_data", .vStr existing),
                                      ("syntax_error", .vDict errD)],
                  next := some "test_generation" }
          | none =>
            tgLoop env existing rest
              (("test_" ++ filename, env.testCode content) :: acc)

/-- From agents/test_generator.py TestGeneratorAgent.run: read the
first message (uncaught IndexError when there is none) and extract any
embedded test data, then either report the empty artifact on an xml
parse error, or run the per-file loop. -/
def testGeneratorRun (env : TGEnv) (state : GState) : Except String Update :=
  match state.messages.head? with
  | none => .error "IndexError: list index out of range"
  | some m0 =>
    let existing := extract_test_data m0
    match env.parse with
    | none =>
      .ok { test_cases := some [("code", .vStr ""), ("original_data", .vStr "")],
            next := some "execute" }
    | some files => tgLoop env existing files []

/-- What one CodeExecutorAgent.run invocation observed from its
collaborators, after the catch-all exception handler of the source is
taken into account: either some exception was raised inside the try
block (xml errors, missing elements, install failure, sandbox
transport), or the sandbox ran the entry file and returned stdout,
stderr and an optional error object. -/
inductive ExecOutcome where
  | fault (msg : String)
  | result (stdout stderr : String) (error : Option String)

/-- From agents/code_executor.py CodeExecutorAgent.run: the whole body
is inside one try with a catch-all except, so the stage never raises;
success is the absence of an execution error, routing recommendation
"review" on success and "generate" otherwise, and any internal fault
becomes execution_result success = false with the error description
and next = "generate". -/
def executorRun (o : ExecOutcome) (state : GState) : Except String Update :=
  let _ := state
  match o with
  | .fault msg =>
    .ok { execution_result := some [("success", .vBool false), ("error", .vStr msg)],
          next := some "generate" }
  | .result out err e =>
    let success := e.isNone
    .ok { execution_result := some
            [("success", .vBool success), ("stdout", .vStr out),
             ("stderr", .vStr err),
             ("error", match e with | some t => .vStr t | none => .vNone)],
          next := some (if success then "review" else "generate") }

/-- External collaborators of one CodeReviewAgent.run invocation: the
xml parse of state.code (none = ET.ParseError, the only exception the
stage catches), the model-backed per-file review call (which may
raise: _invoke_model re-raises and run does not catch it), and the xml
serialisation of the combined review. -/
structure RevEnv where
  parse : Option (List FileElem)
  review : String → String → Except String String
  serialize : List (String × String) → Bool → String

/-- The per-file loop of CodeReviewAgent.run, accumulating
(filename, review text) pairs for the Python files: a missing name or
content text raises (uncaught AttributeError), and a model fault in
_review_file propagates. -/
def revLoop (env : RevEnv) :
    List FileElem → List (String × String) → Except String (List (String × String))
  | [], acc => .ok acc.reverse
  | f :: rest, acc =>
    match f.name with
    | none => .error "AttributeError: NoneType object has no attribute text"
    | some nm =>
      let filename := py_strip nm
      if !(py_endswith filename ".py") then revLoop env rest acc
      else match f.content with
        | none => .error "AttributeError: NoneType object has no attribute text"
        | some c =>
          match env.review filename (py_strip c) with
          | .error e => .error e
          | .ok r => revLoop env rest ((filename, r) :: acc)

/-- From agents/code_reviewer.py CodeReviewAgent.run: an xml parse
error of state.code yields approved = false with next = "generate";
otherwise every Python file is reviewed and the overall approval is
the conjunction, over all per-file reviews, of the two lowercased
substring checks of the source, with next = "package" when approved
and "generate" otherwise. -/
def reviewerRun (env : RevEnv) (state : GState) : Except String Update :=
  let _ := state
  match env.parse with
  | none =>
    .ok { review_result := some [("approved", .vBool false),
                                 ("raw_review", .vStr "Invalid code format")],
          next := some "generate" }
  | some files =>
    match revLoop env files [] with
    | .error e => .error e
    | .ok file_reviews =>
      let all_approved := file_reviews.all (fun p =>
        py_in "true" (py_lower p.2) && py_in "<approved>true</approved>" (py_lower p.2))
      .ok { review_result := some
              [("approved", .vBool all_approved),
               ("raw_review", .vStr (env.serialize file_reviews all_approved))],
            next := some (if all_approved then "package" else "generate") }

/-- What one CodePackagerAgent.run invocation observed, after the
catch-all except of the source: a packaging fault, or the produced
package_info dictionary. -/
inductive PkOutcome where
  | fault (msg : String)
  | packed (info : PyDict)

/-- From agents/code_packager.py CodePackagerAgent.run: next is "END"
unconditionally, also on internal failure; on success the
package_info descriptor is returned as well. -/
def packagerRun (o : PkOutcome) (state : GState) : Except String Update :=
  let _ := state
  match o with
  | .packed info => .ok { next := some "END", package_info := some info }
  | .fault _ => .ok { next := some "END" }

/-- The environment for one engine step: what each external
collaborator would return if the corresponding stage were the one
invoked at this step. -/
structure StepEnv where
  gen : List GenTry
  tg : TGEnv
  ex : ExecOutcome
  rv : RevEnv
  pk : PkOutcome

/-- Dispatch of the workflow engine to the node bodies registered in
_create_workflow (one node per agent of AGENT_REGISTRY). -/
def stepRun (e : StepEnv) (node : String) (s : GState) : Except String Update :=
  if node == "generate" then generateRun e.gen s
  else if node == "generate_sample_data" then testGeneratorRun e.tg s
  else if node == "execute" then executorRun e.ex s
  else if node == "review" then reviewerRun e.rv s
  else packagerRun e.pk s

/-- The transition table of _create_workflow: the static edges
generate → generate_sample_data → execute and package → END, and the
two conditional edges given by the routing functions.  This is the
only place the engine decides where to go next; the next field of the
state is not consulted. -/
def nextNode (node : String) (s : GState) : String :=
  if node == "generate" then "generate_sample_data"
  else if node == "generate_sample_data" then "execute"
  else if node == "execute" then route_after_execute s
  else if node == "review" then route_after_review s
  else ENDMARK

/-- One engine step: invoke the node, merge its partial update, and
compute the next node name from the transition table; a stage
exception aborts the step. -/
def engineStep (e : StepEnv) (node : String) (s : GState) :
    Except String (GState × String) :=
  match stepRun e node s with
  | .error m => .error m
  | .ok u =>
    let s2 := applyUpdate s u
    .ok (s2, nextNode node s2)

/-- Outcome of driving the workflow: the final merged state at the
terminal marker, an exception escaping a stage, or fuel exhaustion of
the bounded model. -/
inductive RunRes where
  | final (s : GState)
  | exn (msg : String)
  | fuelOut

/-- The engine loop: starting at a node, repeatedly take engine steps
until the transition table yields the terminal marker (or a stage
raises).  The oracle gives the external collaborators of the i-th
stage invocation; fuel bounds the number of invocations modelled. -/
def runLoop (oracle : Nat → StepEnv) (i fuel : Nat) (node : String)
    (s : GState) : RunRes :=
  match fuel with
  | 0 => .fuelOut
  | Nat.succ f =>
    match engineStep (oracle i) node s with
    | .error m => .exn m
    | .ok (s2, nxt) =>
      if nxt == ENDMARK then .final s2 else runLoop oracle (i + 1) f nxt s2

/-- The names of the nodes invoked during the run, in order (a stage
exception still counts its own invocation). -/
def runTrace (oracle : Nat → StepEnv) (i fuel : Nat) (node : String)
    (s : GState) : List String :=
  match fuel with
  | 0 => []
  | Nat.succ f =>
    match engineStep (oracle i) node s with
    | .error _ => [node]
    | .ok (s2, nxt) =>
      if nxt == ENDMARK then [node]
      else node :: runTrace oracle (i + 1) f nxt s2

/-- The initial state built by CodeGeneratorModule.generate_module
from the (dedented) request prompt; the entry point of the graph is
the generate node. -/
def initialState (prompt : String) : GState where
  messages := [prompt]
  code := ""
  test_cases := []
  execution_result := []
  review_result := []
  next := "generate"
  attempts := 0

/-- The verdict record generate_module returns to the caller (the
formatted presentation strings are out of scope and omitted; the
success path also carries package_info, dropped by the schema merge
and hence read back as the empty dictionary). -/
structure Verdict where
  success : Bool
  code : Option String := none
  execution_result : Option PyDict := none
  review_result : Option PyDict := none
  error : Option String := none

/-- From generate_module: translation of the final workflow state into
the caller verdict — failure unless both execution_result.success and
review_result.approved are truthy in the final state. -/
def verdictOf (s : GState) : Verdict :=
  if !(truthy (dgetD s.execution_result "success" (.vBool false)))
     || !(truthy (dgetD s.review_result "approved" (.vBool false))) then
    { success := false, code := some s.code,
      execution_result := some s.execution_result,
      review_result := some s.review_result }
  else
    { success := true, code := some s.code,
      execution_result := some s.execution_result,
      review_result := some s.review_result }

/-- From generate_module: the try/except around workflow.invoke — a
normal final state is translated by verdictOf, and an exception is
caught and returned as a failure verdict carrying its description. -/
def generateModuleResult (r : Except String GState) : Verdict :=
  match r with
  | .ok s => verdictOf s
  | .error e => { success := false, error := some e }

/-- From agents/__init__.py and the hasattr check of generate_module:
whether the agent registered under a name defines cleanup (only
CodeExecutorAgent does). -/
def hasattr_cleanup (name : String) : Bool := name == "execute"

/-- From generate_module: the verdict paired with the names of the
agents whose cleanup the finally block invokes; the finally clause
runs on the normal return paths and on the exception path alike, so
the cleanup list does not depend on the outcome. -/
def generateModule (r : Except String GState) : Verdict × List String :=
  (generateModuleResult r, list_agents.filter hasattr_cleanup)

/-- The resource-owning part of CodeExecutorAgent: the lazily acquired
sandbox session handle (none until the first use). -/
structure ExecAgentRes where
  sandbox : Option Nat

/-- From agents/code_executor.py CodeExecutorAgent.cleanup: if a
sandbox was acquired, kill it (exceptions from the kill are caught)
and in all such cases clear the handle; the returned flag records
whether a kill was attempted. -/
def CodeExecutorAgent.cleanup (a : ExecAgentRes) : ExecAgentRes × Bool :=
  match a.sandbox with
  | some _ => (⟨none⟩, true)
  | none => (⟨none⟩, false)

/-- A final state in which execution succeeded and the review
approved. -/
def stBothOk : GState :=
  { initialState "p" with
      execution_result := [("success", .vBool true)],
      review_result := [("approved", .vBool true)] }

/-- A state with a successful execution result only. -/
def stExecTrue : GState :=
  { initialState "p" with execution_result := [("success", .vBool true)] }

/-- A state with neither flag set and an exhausted budget. -/
def stBudget : GState := { initialState "p" with attempts := 3 }

/-- A test-generation environment whose parse yields an empty file
list and whose collaborators answer trivially. -/
def tgEnvOk : TGEnv where
  parse := some []
  unescape := fun s => s
  synErr := fun _ => none
  testCode := fun _ => ""
  serialize := fun _ => ""

/-- A review environment whose parse yields an empty file list and
whose collaborators answer trivially. -/
def rvEnvOk : RevEnv where
  parse := some []
  review := fun _ _ => .ok ""
  serialize := fun _ _ => ""

/-- A review environment for a project with one Python file whose
model-backed review call fails. -/
def rvEnvModelFault : RevEnv where
  parse := some [{ name := some "main.py", content := some "x" }]
  review := fun _ _ => .error "model call failed"
  serialize := fun _ _ => ""

/-- A review environment whose parse raises ET.ParseError. -/
def rvEnvParseFail : RevEnv where
  parse := none
  review := fun _ _ => .ok ""
  serialize := fun _ _ => ""

/-- A review environment for a well-formed project whose single file
element has no name child. -/
def rvEnvNoName : RevEnv where
  parse := some [{ name := none, content := none }]
  review := fun _ _ => .ok ""
  serialize := fun _ _ => ""

/-- A test-generation environment for a project with one Python file
that fails the ast syntax check. -/
def tgEnvSynFault : TGEnv where
  parse := some [{ name := some "main.py", content := some "bad" }]
  unescape := fun s => s
  synErr := fun _ => some [("error_type", .vStr "SyntaxError")]
  testCode := fun _ => ""
  serialize := fun _ => ""

/-- A step environment in which generation always produces valid
project XML but every sandbox execution fails. -/
def envExecFail : StepEnv where
  gen := [GenTry.resp "<project><files/><requirements/></project>" true]
  tg := tgEnvOk
  ex := ExecOutcome.result "" "" (some "boom")
  rv := rvEnvOk
  pk := PkOutcome.fault "io error"

/-- The constant oracle serving envExecFail at every invocation. -/
def oracleExecFail : Nat → StepEnv := fun _ => envExecFail

/-- A step environment in which every generation try yields invalid
XML, so the generate stage takes its fallback branch. -/
def envGenInvalid : StepEnv where
  gen := []
  tg := tgEnvOk
  ex := ExecOutcome.result "" "" none
  rv := rvEnvOk
  pk := PkOutcome.packed []

/-- The attempts counter of a completed run (zero otherwise). -/
def attemptsOf : RunRes → Nat
  | .final s => s.attempts
  | _ => 0

/-- Looking a key up in a merged dictionary whose incoming side binds
that key in head position yields the incoming value: the merge filters
every shadowed binding out of the existing side. -/
theorem dget_merge_head (a : PyDict) (k : String) (v : PyVal) (rest : PyDict) :
    dget (dict_merge_reducer a ((k, v) :: rest)) k = some v := by
  unfold dict_merge_reducer dget
  rw [List.find?_append]
  have h1 : (a.filter fun p => !(((k, v) :: rest).any fun q => q.1 == p.1)).find?
      (fun p => p.1 == k) = none := by
    rw [List.find?_eq_none]
    intro x hx hk
    rcases List.mem_filter.mp hx with ⟨-, hpred⟩
    have hx1 : x.1 = k := by simpa using hk
    simp [hx1] at hpred
  rw [h1]
  simp

/-- The routing function after execute can only answer review, the
terminal marker, or generate, and answers generate only under the
retry budget. -/
theorem route_exec_cases (s : GState) :
    route_after_execute s = "review" ∨ route_after_execute s = ENDMARK ∨
    (route_after_execute s = "generate" ∧ s.attempts < MAX_RETRIES) := by
  unfold route_after_execute
  split
  · exact Or.inl rfl
  · split
    · exact Or.inr (Or.inl rfl)
    · rename_i h2
      exact Or.inr (Or.inr ⟨rfl, by omega⟩)

/-- The routing function after review can only answer package, the
terminal marker, or generate, and answers generate only under the
retry budget. -/
theorem route_review_cases (s : GState) :
    route_after_review s = "package" ∨ route_after_review s = ENDMARK ∨
    (route_after_review s = "generate" ∧ s.attempts < MAX_RETRIES) := by
  unfold route_after_review
  split
  · exact Or.inl rfl
  · split
    · exact Or.inr (Or.inl rfl)
    · rename_i h2
      exact Or.inr (Or.inr ⟨rfl, by omega⟩)

/-- Unfolding one loop step that ends in a stage exception. -/
theorem runLoop_exn (o : Nat → StepEnv) (i f : Nat) (node : String)
    (s : GState) (m : String) (h : engineStep (o i) node s = .error m) :
    runLoop o i (f + 1) node s = .exn m := by
  simp only [runLoop]
  rw [h]

/-- Unfolding one loop step that continues to a non-terminal node. -/
theorem runLoop_cont (o : Nat → StepEnv) (i f : Nat) (node : String)
    (s s2 : GState) (nxt : String)
    (h : engineStep (o i) node s = .ok (s2, nxt))
    (hn : (nxt == ENDMARK) = false) :
    runLoop o i (f + 1) node s = runLoop o (i + 1) f nxt s2 := by
  simp only [runLoop]
  rw [h]
  simp [hn]

/-- Unfolding one loop step that reaches the terminal marker. -/
theorem runLoop_end (o : Nat → StepEnv) (i f : Nat) (node : String)
    (s s2 : GState) (nxt : String)
    (h : engineStep (o i) node s = .ok (s2, nxt))
    (hn : (nxt == ENDMARK) = true) :
    runLoop o i (f + 1) node s = .final s2 := by
  simp only [runLoop]
  rw [h]
  simp [hn]

/-- C9: the replace-latest and shallow-merge-dict reducers are
idempotent: merging the same incoming value twice in succession yields
the same field value as merging it once. -/
theorem C9_reducer_idempotence (a b : String) (d e : PyDict) :
    take_latest_reducer (take_latest_reducer a b) b = take_latest_reducer a b ∧
    dict_merge_reducer (dict_merge_reducer d e) e = dict_merge_reducer d e := by
  constructor
  · rfl
  · unfold dict_merge_reducer
    have h1 : (e.filter fun p => !(e.any fun q => q.1 == p.1)) = [] := by
      rw [List.filter_eq_nil_iff]
      intro x hx hpred
      simp only [Bool.not_eq_true', List.any_eq_false] at hpred
      exact hpred x hx (by simp)
    simp [List.filter_append, List.filter_filter, Bool.and_self, h1]

/-- C2: at the two conditional decision points, the route after
execute is review when execution succeeded, the terminal marker when
the budget is exhausted, and generate otherwise; the route after
review is package when approved, the terminal marker when the budget
is exhausted, and generate otherwise; both compare the same cumulative
attempts counter with the same constant MAX_RETRIES = 3. -/
theorem C2_router_decision_points (s : GState) :
    (truthy (dgetD s.execution_result "success" (.vBool false)) = true →
      route_after_execute s = "review") ∧
    (truthy (dgetD s.execution_result "success" (.vBool false)) = false →
      MAX_RETRIES ≤ s.attempts → route_after_execute s = ENDMARK) ∧
    (truthy (dgetD s.execution_result "success" (.vBool false)) = false →
      s.attempts < MAX_RETRIES → route_after_execute s = "generate") ∧
    (truthy (dgetD s.review_result "approved" (.vBool false)) = true →
      route_after_review s = "package") ∧
    (truthy (dgetD s.review_result "approved" (.vBool false)) = false →
      MAX_RETRIES ≤ s.attempts → route_after_review s = ENDMARK) ∧
    (truthy (dgetD s.review_result "approved" (.vBool false)) = false →
      s.attempts < MAX_RETRIES → route_after_review s = "generate") ∧
    MAX_RETRIES = 3 := by
  refine ⟨?_, ?_, ?_, ?_, ?_, ?_, rfl⟩
  · intro h1
    simp [route_after_execute, h1]
  · intro h1 h2
    have h3 : s.attempts ≥ MAX_RETRIES := h2
    simp [route_after_execute, h1, h3]
  · intro h1 h2
    have h3 : ¬(s.attempts ≥ MAX_RETRIES) := by omega
    simp [route_after_execute, h1, h3]
  · intro h1
    simp [route_after_review, h1]
  · intro h1 h2
    have h3 : s.attempts ≥ MAX_RETRIES := h2
    simp [route_after_review, h1, h3]
  · intro h1 h2
    have h3 : ¬(s.attempts ≥ MAX_RETRIES) := by omega
    simp [route_after_review, h1, h3]

/-- C2 witness: the six router cases on concrete states. -/
theorem C2_router_decision_points_witness :
    route_after_execute stExecTrue = "review" ∧
    route_after_execute stBudget = ENDMARK ∧
    route_after_execute (initialState "p") = "generate" ∧
    route_after_review stBothOk = "package" ∧
    route_after_review stBudget = ENDMARK ∧
    route_after_review (initialState "p") = "generate" :=
  ⟨(C2_router_decision_points stExecTrue).1 (by decide),
   (C2_router_decision_points stBudget).2.1 (by decide) (by decide),
   (C2_router_decision_points (initialState "p")).2.2.1 (by decide) (by decide),
   (C2_router_decision_points stBothOk).2.2.2.1 (by decide),
   (C2_router_decision_points stBudget).2.2.2.2.1 (by decide) (by decide),
   (C2_router_decision_points (initialState "p")).2.2.2.2.2.1 (by decide) (by decide)⟩

/-- C5: the verdict generate_module reports for a normal final state
is successful exactly when both execution_result.success and
review_result.approved are truthy there, and an exception during
invocation is reported as failure. -/
theorem C5_verdict_iff_both_flags (s : GState) (e : String) :
    (generateModuleResult (.ok s)).success
      = (truthy (dgetD s.execution_result "success" (.vBool false))
         && truthy (dgetD s.review_result "approved" (.vBool false))) ∧
    (generateModuleResult (.error e)).success = false := by
  constructor
  · unfold generateModuleResult verdictOf
    cases h1 : truthy (dgetD s.execution_result "success" (.vBool false)) <;>
      cases h2 : truthy (dgetD s.review_result "approved" (.vBool false)) <;>
        simp [h1, h2]
  · rfl

/-- C7: the run controller invokes cleanup on exactly the agents that
own a resource (the execute agent) for every outcome of the workflow
invocation — normal verdicts and exceptions alike — and the execute
agent cleanup is idempotent: it is a no-op when no sandbox was ever
acquired, it always leaves the handle released, and a second
invocation after a release is a no-op that preserves the released
state. -/
theorem C7_cleanup_all_paths_idempotent (r : Except String GState) (a : ExecAgentRes) :
    (generateModule r).2 = ["execute"] ∧
    CodeExecutorAgent.cleanup ⟨none⟩ = (⟨none⟩, false) ∧
    (CodeExecutorAgent.cleanup a).1.sandbox = none ∧
    CodeExecutorAgent.cleanup (CodeExecutorAgent.cleanup a).1
      = ((CodeExecutorAgent.cleanup a).1, false) := by
  refine ⟨rfl, rfl, ?_, ?_⟩
  · obtain ⟨sb⟩ := a
    cases sb <;> rfl
  · obtain ⟨sb⟩ := a
    cases sb <;> rfl

/-- Shape of a generation step: an uncaught IndexError when the
message list is empty, and otherwise a partial update carrying some
code, some next recommendation and — in every branch — the attempts
report current attempts + 1, fed to the additive reducer. -/
theorem generateRun_shape (tries : List GenTry) (s : GState) :
    (s.messages.getLast? = none ∧ ∃ m, generateRun tries s = .error m) ∨
    (∃ c n, (n = "execute" ∨ n = "END") ∧ generateRun tries s
      = .ok { code := some c, next := some n, attempts := some (s.attempts + 1) }) := by
  unfold generateRun
  cases hL : s.messages.getLast? with
  | none => exact Or.inl ⟨rfl, _, rfl⟩
  | some v =>
    cases hf : firstValid (tries.take 3) with
    | some t => exact Or.inr ⟨t, "execute", Or.inl rfl, rfl⟩
    | none => exact Or.inr ⟨_, "END", Or.inr rfl, rfl⟩

/-- Shape of the test-generation per-file loop: it raises, or returns
an update that writes only test_cases and next, with next either
execute or the unregistered name test_generation. -/
theorem tgLoop_shape (env : TGEnv) (ex : String) :
    ∀ (files : List FileElem) (acc : List (String × String)),
    (∃ m, tgLoop env ex files acc = .error m) ∨
    (∃ u, tgLoop env ex files acc = .ok u ∧ u.messages = none ∧ u.attempts = none ∧
          (u.next = some "execute" ∨ u.next = some "test_generation"))
  | [], acc => Or.inr ⟨_, rfl, rfl, rfl, Or.inl rfl⟩
  | f :: rest, acc => by
    cases hn : f.name with
    | none =>
      exact Or.inl ⟨"AttributeError: NoneType object has no attribute text",
        by simp [tgLoop, hn]⟩
    | some nm =>
      cases hpy : py_endswith (py_strip nm) ".py" with
      | false =>
        have he : tgLoop env ex (f :: rest) acc = tgLoop env ex rest acc := by
          simp [tgLoop, hn, hpy]
        rw [he]
        exact tgLoop_shape env ex rest acc
      | true =>
        cases hc : f.content with
        | none =>
          exact Or.inl ⟨"AttributeError: NoneType object has no attribute text",
            by simp [tgLoop, hn, hpy, hc]⟩
        | some c =>
          cases hs : env.synErr (env.unescape (py_strip c)) with
          | some dd =>
            refine Or.inr ⟨{ test_cases := some [("code", .vStr ""),
                                                 ("original_data", .vStr ex),
                                                 ("syntax_error", .vDict dd)],
                             next := some "test_generation" },
              ?_, rfl, rfl, Or.inr rfl⟩
            simp [tgLoop, hn, hpy, hc, hs]
          | none =>
            have he : tgLoop env ex (f :: rest) acc
                = tgLoop env ex rest
                    (("test_" ++ py_strip nm,
                      env.testCode (env.unescape (py_strip c))) :: acc) := by
              simp [tgLoop, hn, hpy, hc, hs]
            rw [he]
            exact tgLoop_shape env ex rest _

/-- Shape of a test-generation step: it raises, or returns an update
that leaves messages and attempts alone and recommends execute or
test_generation. -/
theorem testGeneratorRun_shape (env : TGEnv) (s : GState) :
    (∃ m, testGeneratorRun env s = .error m) ∨
    (∃ u, testGeneratorRun env s = .ok u ∧ u.messages = none ∧ u.attempts = none ∧
          (u.next = some "execute" ∨ u.next = some "test_generation")) := by
  unfold testGeneratorRun
  cases h0 : s.messages.head? with
  | none => exact Or.inl ⟨_, rfl⟩
  | some m0 =>
    cases hp : env.parse with
    | none => exact Or.inr ⟨_, rfl, rfl, rfl, Or.inl rfl⟩
    | some files => exact tgLoop_shape env _ files []

/-- The execute stage never raises: its catch-all handler converts
every fault; the update leaves messages and attempts alone and its
next recommendation is review or generate. -/
theorem executorRun_shape (o : ExecOutcome) (s : GState) :
    ∃ u, executorRun o s = .ok u ∧ u.messages = none ∧ u.attempts = none ∧
         (u.next = some "review" ∨ u.next = some "generate") := by
  cases o with
  | fault m => exact ⟨_, rfl, rfl, rfl, Or.inr rfl⟩
  | result out err e =>
    cases e with
    | none => exact ⟨_, rfl, rfl, rfl, Or.inl rfl⟩
    | some t => exact ⟨_, rfl, rfl, rfl, Or.inr rfl⟩

/-- Shape of the review per-file loop: it raises or returns the
collected per-file reviews. -/
theorem revLoop_shape (env : RevEnv) :
    ∀ (files : List FileElem) (acc : List (String × String)),
    (∃ m, revLoop env files acc = .error m) ∨
    (∃ frs, revLoop env files acc = .ok frs)
  | [], acc => Or.inr ⟨_, rfl⟩
  | f :: rest, acc => by
    cases hn : f.name with
    | none =>
      exact Or.inl ⟨"AttributeError: NoneType object has no attribute text",
        by simp [revLoop, hn]⟩
    | some nm =>
      cases hpy : py_endswith (py_strip nm) ".py" with
      | false =>
        have he : revLoop env (f :: rest) acc = revLoop env rest acc := by
          simp [revLoop, hn, hpy]
        rw [he]
        exact revLoop_shape env rest acc
      | true =>
        cases hc : f.content with
        | none =>
          exact Or.inl ⟨"AttributeError: NoneType object has no attribute text",
            by simp [revLoop, hn, hpy, hc]⟩
        | some c =>
          cases hr : env.review (py_strip nm) (py_strip c) with
          | error e => exact Or.inl ⟨e, by simp [revLoop, hn, hpy, hc, hr]⟩
          | ok r =>
            have he : revLoop env (f :: rest) acc
                = revLoop env rest ((py_strip nm, r) :: acc) := by
              simp [revLoop, hn, hpy, hc, hr]
            rw [he]
            exact revLoop_shape env rest _

/-- Shape of a review step: it raises, or returns an update that
leaves messages and attempts alone and recommends package or
generate. -/
theorem reviewerRun_shape (env : RevEnv) (s : GState) :
    (∃ m, reviewerRun env s = .error m) ∨
    (∃ u, reviewerRun env s = .ok u ∧ u.messages = none ∧ u.attempts = none ∧
          (u.next = some "package" ∨ u.next = some "generate")) := by
  cases hp : env.parse with
  | none =>
    exact Or.inr ⟨{ review_result := some [("approved", .vBool false),
                                           ("raw_review", .vStr "Invalid code format")],
                    next := some "generate" },
      by simp [reviewerRun, hp], rfl, rfl, Or.inr rfl⟩
  | some files =>
    rcases revLoop_shape env files [] with ⟨m, hr⟩ | ⟨frs, hr⟩
    · exact Or.inl ⟨m, by simp [reviewerRun, hp, hr]⟩
    · cases ha : frs.all (fun p =>
          py_in "true" (py_lower p.2) && py_in "<approved>true</approved>" (py_lower p.2)) with
      | true =>
        exact Or.inr ⟨{ review_result := some
                          [("approved", .vBool true),
                           ("raw_review", .vStr (env.serialize frs true))],
                        next := some "package" },
          by simp [reviewerRun, hp, hr, ha], rfl, rfl, Or.inl rfl⟩
      | false =>
        exact Or.inr ⟨{ review_result := some
                          [("approved", .vBool false),
                           ("raw_review", .vStr (env.serialize frs false))],
                        next := some "generate" },
          by simp [reviewerRun, hp, hr, ha], rfl, rfl, Or.inr rfl⟩

/-- The package stage never raises and always recommends the terminal
marker string. -/
theorem packagerRun_shape (o : PkOutcome) (s : GState) :
    ∃ u, packagerRun o s = .ok u ∧ u.messages = none ∧ u.attempts = none ∧
         u.next = some "END" := by
  cases o with
  | fault m => exact ⟨_, rfl, rfl, rfl, rfl⟩
  | packed info => exact ⟨_, rfl, rfl, rfl, rfl⟩

/-- One engine step at the generate node: a stage exception, or a
transition to generate_sample_data by the static edge with attempts
merged additively to attempts + (attempts + 1). -/
theorem engine_gen (e : StepEnv) (s : GState) :
    (∃ m, engineStep e "generate" s = .error m) ∨
    (∃ s2, engineStep e "generate" s = .ok (s2, "generate_sample_data") ∧
           s2.attempts = s.attempts + (s.attempts + 1)) := by
  have hsr : stepRun e "generate" s = generateRun e.gen s := rfl
  rcases generateRun_shape e.gen s with ⟨-, m, hm⟩ | ⟨c, n, -, hok⟩
  · exact Or.inl ⟨m, by unfold engineStep; rw [hsr, hm]⟩
  · refine Or.inr ⟨applyUpdate s
      { code := some c, next := some n, attempts := some (s.attempts + 1) }, ?_, rfl⟩
    unfold engineStep
    rw [hsr, hok]
    rfl

/-- One engine step at the generate_sample_data node: a stage
exception, or a transition to execute by the static edge, leaving
attempts unchanged. -/
theorem engine_tg (e : StepEnv) (s : GState) :
    (∃ m, engineStep e "generate_sample_data" s = .error m) ∨
    (∃ s2, engineStep e "generate_sample_data" s = .ok (s2, "execute") ∧
           s2.attempts = s.attempts) := by
  have hsr : stepRun e "generate_sample_data" s = testGeneratorRun e.tg s := rfl
  rcases testGeneratorRun_shape e.tg s with ⟨m, hm⟩ | ⟨u, hok, hmsg, hatt, -⟩
  · exact Or.inl ⟨m, by unfold engineStep; rw [hsr, hm]⟩
  · refine Or.inr ⟨applyUpdate s u, ?_, ?_⟩
    · unfold engineStep
      rw [hsr, hok]
      rfl
    · simp [applyUpdate, hatt]

/-- One engine step at the execute node: never an exception; the
transition is the router verdict on the merged state, and attempts are
unchanged. -/
theorem engine_exec (e : StepEnv) (s : GState) :
    ∃ s2, engineStep e "execute" s = .ok (s2, route_after_execute s2) ∧
          s2.attempts = s.attempts := by
  have hsr : stepRun e "execute" s = executorRun e.ex s := rfl
  obtain ⟨u, hok, hmsg, hatt, -⟩ := executorRun_shape e.ex s
  refine ⟨applyUpdate s u, ?_, ?_⟩
  · unfold engineStep
    rw [hsr, hok]
    rfl
  · simp [applyUpdate, hatt]

/-- One engine step at the review node: a stage exception, or the
router verdict on the merged state with attempts unchanged. -/
theorem engine_rv (e : StepEnv) (s : GState) :
    (∃ m, engineStep e "review" s = .error m) ∨
    (∃ s2, engineStep e "review" s = .ok (s2, route_after_review s2) ∧
           s2.attempts = s.attempts) := by
  have hsr : stepRun e "review" s = reviewerRun e.rv s := rfl
  rcases reviewerRun_shape e.rv s with ⟨m, hm⟩ | ⟨u, hok, hmsg, hatt, -⟩
  · exact Or.inl ⟨m, by unfold engineStep; rw [hsr, hm]⟩
  · refine Or.inr ⟨applyUpdate s u, ?_, ?_⟩
    · unfold engineStep
      rw [hsr, hok]
      rfl
    · simp [applyUpdate, hatt]

/-- One engine step at the package node: never an exception, and the
transition is always the terminal marker. -/
theorem engine_pk (e : StepEnv) (s : GState) :
    ∃ s2, engineStep e "package" s = .ok (s2, ENDMARK) := by
  have hsr : stepRun e "package" s = packagerRun e.pk s := rfl
  obtain ⟨u, hok, -, -, -⟩ := packagerRun_shape e.pk s
  refine ⟨applyUpdate s u, ?_⟩
  unfold engineStep
  rw [hsr, hok]
  rfl

/-- C3 counterexample: when every generation try is invalid, the
generate stage recommends the terminal marker in the next field of the
merged state, yet the engine transitions to generate_sample_data by
the static edge table — the stage recommendation does not determine
the transition. -/
theorem C3_counterexample :
    (match engineStep envGenInvalid "generate" (initialState "p") with
     | .ok (s, nxt) => (s.next, nxt)
     | .error _ => ("", "")) = ("END", "generate_sample_data") := rfl

/-- C3 amended: the successor of every engine step is determined
solely by the static edge table and the two routing functions; the
next field of the state is never consulted — replacing it with any
value leaves every transition unchanged. -/
theorem C3_amended_edge_table (node : String) (s : GState) (v : String) :
    nextNode node { s with next := v } = nextNode node s ∧
    nextNode "generate" s = "generate_sample_data" ∧
    nextNode "generate_sample_data" s = "execute" ∧
    nextNode "execute" s = route_after_execute s ∧
    nextNode "review" s = route_after_review s ∧
    nextNode "package" s = ENDMARK :=
  ⟨rfl, rfl, rfl, rfl, rfl, rfl⟩

/-- C4 counterexample: a failed generative-model call inside the
review stage propagates past the stage boundary — CodeReviewAgent.run
catches only ET.ParseError. -/
theorem C4_counterexample :
    reviewerRun rvEnvModelFault (initialState "p") = .error "model call failed" := rfl

/-- C4 amended: the execute and package stages never raise for any
input (their handlers are catch-all); the generate stage never raises
when the message list is nonempty (model faults are caught inside its
retry loop); and the review stage converts an XML parse error into a
rejected review — but, per the counterexample, a model fault in
review is not caught. -/
theorem C4_amended_fault_handling (o : ExecOutcome) (po : PkOutcome)
    (tries : List GenTry) (env : RevEnv) (s t : GState)
    (hm : t.messages ≠ []) (hp : env.parse = none) :
    (∃ u, executorRun o s = .ok u) ∧
    (∃ u, packagerRun po s = .ok u) ∧
    (∃ u, generateRun tries t = .ok u) ∧
    reviewerRun env s = .ok
      { review_result := some [("approved", .vBool false),
                               ("raw_review", .vStr "Invalid code format")],
        next := some "generate" } := by
  refine ⟨?_, ?_, ?_, ?_⟩
  · obtain ⟨u, h, -, -, -⟩ := executorRun_shape o s
    exact ⟨u, h⟩
  · obtain ⟨u, h, -, -, -⟩ := packagerRun_shape po s
    exact ⟨u, h⟩
  · rcases generateRun_shape tries t with ⟨hL, -, -⟩ | ⟨c, n, -, hok⟩
    · exact absurd (List.getLast?_eq_none_iff.mp hL) hm
    · exact ⟨_, hok⟩
  · simp [reviewerRun, hp]

/-- C4 witness: the amended fault-handling statement at concrete
inputs. -/
theorem C4_amended_fault_handling_witness :
    (∃ u, executorRun (ExecOutcome.fault "boom") (initialState "p") = .ok u) ∧
    (∃ u, packagerRun (PkOutcome.fault "io error") (initialState "p") = .ok u) ∧
    (∃ u, generateRun [] (initialState "p") = .ok u) ∧
    reviewerRun rvEnvParseFail (initialState "p") = .ok
      { review_result := some [("approved", .vBool false),
                               ("raw_review", .vStr "Invalid code format")],
        next := some "generate" } :=
  C4_amended_fault_handling (ExecOutcome.fault "boom") (PkOutcome.fault "io error")
    [] rvEnvParseFail (initialState "p") (initialState "p")
    (by simp [initialState]) rfl

/-- C8 counterexample: the test-generation stage returns the
unregistered name test_generation in the next field when a Python file
fails the ast syntax check, a value outside the registered stage names
and the terminal marker. -/
theorem C8_counterexample :
    (match testGeneratorRun tgEnvSynFault (initialState "p") with
     | .ok u => u.next
     | .error _ => none) = some "test_generation" ∧
    ("test_generation" ∈ ENDMARK :: list_agents) = False := by
  constructor
  · rfl
  · simp [list_agents, ENDMARK]

/-- C8 amended: every next value any stage returns is a registered
stage name or the terminal marker, except that the test-generation
stage can also return the unregistered name test_generation (on a
syntax-error branch); the two routing functions always return a
registered name or the terminal marker. -/
theorem C8_amended_next_values (ge : List GenTry) (te : TGEnv) (oe : ExecOutcome)
    (re : RevEnv) (pe : PkOutcome) (s : GState) (u : Update) (n : String) :
    ((generateRun ge s = .ok u ∨ testGeneratorRun te s = .ok u ∨
      executorRun oe s = .ok u ∨ reviewerRun re s = .ok u ∨
      packagerRun pe s = .ok u) → u.next = some n →
      (n ∈ ENDMARK :: list_agents ∨ n = "test_generation")) ∧
    route_after_execute s ∈ ENDMARK :: list_agents ∧
    route_after_review s ∈ ENDMARK :: list_agents := by
  refine ⟨?_, ?_, ?_⟩
  · intro hrun hnext
    rcases hrun with h | h | h | h | h
    · rcases generateRun_shape ge s with ⟨-, m, hm⟩ | ⟨c, n2, hn2, hok⟩
      · rw [h] at hm
        exact absurd hm (by simp)
      · rw [h] at hok
        injection hok with he
        rw [he] at hnext
        injection hnext with h3
        subst h3
        rcases hn2 with h4 | h4 <;> subst h4 <;> simp [list_agents, ENDMARK]
    · rcases testGeneratorRun_shape te s with ⟨m, hm⟩ | ⟨u2, hok, -, -, hnx⟩
      · rw [h] at hm
        exact absurd hm (by simp)
      · rw [h] at hok
        injection hok with he
        subst he
        rcases hnx with hx | hx <;> rw [hx] at hnext <;>
          injection hnext with h3 <;> subst h3 <;> simp [list_agents, ENDMARK]
    · obtain ⟨u2, hok, -, -, hnx⟩ := executorRun_shape oe s
      rw [h] at hok
      injection hok with he
      subst he
      rcases hnx with hx | hx <;> rw [hx] at hnext <;>
        injection hnext with h3 <;> subst h3 <;> simp [list_agents, ENDMARK]
    · rcases reviewerRun_shape re s with ⟨m, hm⟩ | ⟨u2, hok, -, -, hnx⟩
      · rw [h] at hm
        exact absurd hm (by simp)
      · rw [h] at hok
        injection hok with he
        subst he
        rcases hnx with hx | hx <;> rw [hx] at hnext <;>
          injection hnext with h3 <;> subst h3 <;> simp [list_agents, ENDMARK]
    · obtain ⟨u2, hok, -, -, hnx⟩ := packagerRun_shape pe s
      rw [h] at hok
      injection hok with he
      subst he
      rw [hnx] at hnext
      injection hnext with h3
      subst h3
      simp [list_agents, ENDMARK]
  · rcases route_exec_cases s with h | h | ⟨h, -⟩ <;> rw [h] <;>
      simp [list_agents, ENDMARK]
  · rcases route_review_cases s with h | h | ⟨h, -⟩ <;> rw [h] <;>
      simp [list_agents, ENDMARK]

/-- C8 witness: the amended statement at a concrete execute-stage
fault, whose next recommendation generate is a registered name. -/
theorem C8_amended_next_values_witness :
    "generate" ∈ ENDMARK :: list_agents ∨ "generate" = "test_generation" :=
  (C8_amended_next_values [] tgEnvOk (ExecOutcome.fault "boom") rvEnvOk
      (PkOutcome.fault "x") (initialState "p")
      { execution_result := some [("success", .vBool false), ("error", .vStr "boom")],
        next := some "generate" } "generate").1
    (Or.inr (Or.inr (Or.inl rfl))) rfl

/-- The review per-file loop returns exactly the accumulator when
every file element has a name and none of the names denotes a Python
file: every element is skipped. -/
theorem revLoop_skip (env : RevEnv) :
    ∀ (files : List FileElem) (acc : List (String × String)),
    (∀ f ∈ files, ∃ nm, f.name = some nm ∧ py_endswith (py_strip nm) ".py" = false) →
    revLoop env files acc = .ok acc.reverse
  | [], acc, _ => rfl
  | f :: rest, acc, h => by
    obtain ⟨nm, hn, hpy⟩ := h f (List.mem_cons_self f rest)
    have he : revLoop env (f :: rest) acc = revLoop env rest acc := by
      simp [revLoop, hn, hpy]
    rw [he]
    exact revLoop_skip env rest acc (fun g hg => h g (List.mem_cons_of_mem f hg))

/-- C10 counterexample: a state whose code parses as well-formed XML
with a single file element that has no name child (so no file name
ends in .py) makes the review stage raise AttributeError instead of
approving. -/
theorem C10_counterexample :
    reviewerRun rvEnvNoName (initialState "p")
      = .error "AttributeError: NoneType object has no attribute text" := rfl

/-- C10 amended: when the code parses as well-formed XML and every
file element carries a name, none of which denotes a Python file, the
review stage approves — the overall approval is a conjunction over an
empty collection of per-file reviews — and recommends package. -/
theorem C10_amended_empty_review_approves (env : RevEnv) (s : GState)
    (files : List FileElem) (hp : env.parse = some files)
    (hf : ∀ f ∈ files, ∃ nm, f.name = some nm ∧ py_endswith (py_strip nm) ".py" = false) :
    reviewerRun env s = .ok
      { review_result := some [("approved", .vBool true),
                               ("raw_review", .vStr (env.serialize [] true))],
        next := some "package" } := by
  have hr : revLoop env files [] = .ok [] := revLoop_skip env files [] hf
  simp [reviewerRun, hp, hr]

/-- C10 witness: the amended statement for the empty file list. -/
theorem C10_amended_empty_review_approves_witness :
    reviewerRun rvEnvOk (initialState "p") = .ok
      { review_result := some [("approved", .vBool true),
                               ("raw_review", .vStr (rvEnvOk.serialize [] true))],
        next := some "package" } :=
  C10_amended_empty_review_approves rvEnvOk (initialState "p") [] rfl (by simp)

/-- C1: evaluation of the engine at the failing input — an oracle
whose generation always returns valid XML and whose sandbox execution
always fails.  The Generate stage is invoked exactly twice, yet the
final attempts counter is 3, not 2: each Generate invocation reports
attempts + 1 computed from the current state, and the operator.add
annotation of the attempts channel adds that value to the current one,
so attempts grows as 1, 3, 7, ... instead of counting invocations. -/
theorem C1_attempts_diverges_from_generate_count :
    runTrace oracleExecFail 0 10 "generate" (initialState "p")
      = ["generate", "generate_sample_data", "execute",
         "generate", "generate_sample_data", "execute"] ∧
    (runTrace oracleExecFail 0 10 "generate" (initialState "p")).count "generate" = 2 ∧
    attemptsOf (runLoop oracleExecFail 0 10 "generate" (initialState "p")) = 3 := by
  refine ⟨?_, ?_, ?_⟩ <;> rfl

/-- Transport of non-fuel-exhaustion along a loop-unfolding
equation. -/
theorem ne_fuelOut_of_eq (r r2 : RunRes) (h : r = r2)
    (h2 : r2 ≠ RunRes.fuelOut) : r ≠ RunRes.fuelOut := h ▸ h2

/-- From the generate node with at least one recorded attempt, the run
completes within five further stage invocations: the attempts counter
at least triples past the retry ceiling, so neither router can route
back to generate. -/
theorem final_cycle (o : Nat → StepEnv) (i f : Nat) (s : GState)
    (ha : 1 ≤ s.attempts) :
    runLoop o i (f + 5) "generate" s ≠ RunRes.fuelOut := by
  rcases engine_gen (o i) s with ⟨m, he⟩ | ⟨s1, h1, ha1⟩
  · exact ne_fuelOut_of_eq _ _ (runLoop_exn o i (f + 4) "generate" s m he)
      (fun hc => RunRes.noConfusion hc)
  · refine ne_fuelOut_of_eq _ _
      (runLoop_cont o i (f + 4) "generate" s s1 "generate_sample_data" h1 rfl) ?_
    rcases engine_tg (o (i + 1)) s1 with ⟨m, he⟩ | ⟨s2, h2, ha2⟩
    · exact ne_fuelOut_of_eq _ _
        (runLoop_exn o (i + 1) (f + 3) "generate_sample_data" s1 m he)
        (fun hc => RunRes.noConfusion hc)
    · refine ne_fuelOut_of_eq _ _
        (runLoop_cont o (i + 1) (f + 3) "generate_sample_data" s1 s2 "execute" h2 rfl) ?_
      obtain ⟨s3, h3, ha3⟩ := engine_exec (o (i + 2)) s2
      have hat3 : 3 ≤ s3.attempts := by
        rw [ha3, ha2, ha1]
        omega
      rcases route_exec_cases s3 with hr | hr | ⟨-, hlt⟩
      · rw [hr] at h3
        refine ne_fuelOut_of_eq _ _
          (runLoop_cont o (i + 2) (f + 2) "execute" s2 s3 "review" h3 rfl) ?_
        rcases engine_rv (o (i + 3)) s3 with ⟨m, he⟩ | ⟨s4, h4, ha4⟩
        · exact ne_fuelOut_of_eq _ _
            (runLoop_exn o (i + 3) (f + 1) "review" s3 m he)
            (fun hc => RunRes.noConfusion hc)
        · rcases route_review_cases s4 with hrr | hrr | ⟨-, hlt4⟩
          · rw [hrr] at h4
            refine ne_fuelOut_of_eq _ _
              (runLoop_cont o (i + 3) (f + 1) "review" s3 s4 "package" h4 rfl) ?_
            obtain ⟨s5, h5⟩ := engine_pk (o (i + 4)) s4
            exact ne_fuelOut_of_eq _ _
              (runLoop_end o (i + 4) f "package" s4 s5 ENDMARK h5 rfl)
              (fun hc => RunRes.noConfusion hc)
          · rw [hrr] at h4
            exact ne_fuelOut_of_eq _ _
              (runLoop_end o (i + 3) (f + 1) "review" s3 s4 ENDMARK h4 rfl)
              (fun hc => RunRes.noConfusion hc)
          · have hlt3 : s4.attempts < 3 := hlt4
            rw [ha4] at hlt3
            omega
      · rw [hr] at h3
        exact ne_fuelOut_of_eq _ _
          (runLoop_end o (i + 2) (f + 2) "execute" s2 s3 ENDMARK h3 rfl)
          (fun hc => RunRes.noConfusion hc)
      · have hlt3 : s3.attempts < 3 := hlt
        omega

/-- C6: for every oracle of external collaborators, a run started at
the generate node on the initial state reaches a terminal outcome
(final state or stage exception) within MAX_RETRIES * 3 + 1 stage
invocations — the fuel-bounded engine never exhausts that budget. -/
theorem C6_bounded_invocations (oracle : Nat → StepEnv) (p : String) :
    runLoop oracle 0 (MAX_RETRIES * 3 + 1) "generate" (initialState p)
      ≠ RunRes.fuelOut := by
  have h10 : MAX_RETRIES * 3 + 1 = 10 := rfl
  rw [h10]
  rcases engine_gen (oracle 0) (initialState p) with ⟨m, he⟩ | ⟨s1, h1, ha1⟩
  · exact ne_fuelOut_of_eq _ _
      (runLoop_exn oracle 0 9 "generate" (initialState p) m he)
      (fun hc => RunRes.noConfusion hc)
  · have hA1 : s1.attempts = 1 := by
      rw [ha1]
      rfl
    refine ne_fuelOut_of_eq _ _
      (runLoop_cont oracle 0 9 "generate" (initialState p) s1 "generate_sample_data"
        h1 rfl) ?_
    rcases engine_tg (oracle 1) s1 with ⟨m, he⟩ | ⟨s2, h2, ha2⟩
    · exact ne_fuelOut_of_eq _ _
        (runLoop_exn oracle 1 8 "generate_sample_data" s1 m he)
        (fun hc => RunRes.noConfusion hc)
    · refine ne_fuelOut_of_eq _ _
        (runLoop_cont oracle 1 8 "generate_sample_data" s1 s2 "execute" h2 rfl) ?_
      obtain ⟨s3, h3, ha3⟩ := engine_exec (oracle 2) s2
      have hA3 : s3.attempts = 1 := by rw [ha3, ha2, hA1]
      rcases route_exec_cases s3 with hr | hr | ⟨hr, -⟩
      · rw [hr] at h3
        refine ne_fuelOut_of_eq _ _
          (runLoop_cont oracle 2 7 "execute" s2 s3 "review" h3 rfl) ?_
        rcases engine_rv (oracle 3) s3 with ⟨m, he⟩ | ⟨s4, h4, ha4⟩
        · exact ne_fuelOut_of_eq _ _
            (runLoop_exn oracle 3 6 "review" s3 m he)
            (fun hc => RunRes.noConfusion hc)
        · have hA4 : s4.attempts = 1 := by rw [ha4, hA3]
          rcases route_review_cases s4 with hrr | hrr | ⟨hrr, -⟩
          · rw [hrr] at h4
            refine ne_fuelOut_of_eq _ _
              (runLoop_cont oracle 3 6 "review" s3 s4 "package" h4 rfl) ?_
            obtain ⟨s5, h5⟩ := engine_pk (oracle 4) s4
            exact ne_fuelOut_of_eq _ _
              (runLoop_end oracle 4 5 "package" s4 s5 ENDMARK h5 rfl)
              (fun hc => RunRes.noConfusion hc)
          · rw [hrr] at h4
            exact ne_fuelOut_of_eq _ _
              (runLoop_end oracle 3 6 "review" s3 s4 ENDMARK h4 rfl)
              (fun hc => RunRes.noConfusion hc)
          · rw [hrr] at h4
            refine ne_fuelOut_of_eq _ _
              (runLoop_cont oracle 3 6 "review" s3 s4 "generate" h4 rfl) ?_
            exact final_cycle oracle 4 1 s4 (by omega)
      · rw [hr] at h3
        exact ne_fuelOut_of_eq _ _
          (runLoop_end oracle 2 7 "execute" s2 s3 ENDMARK h3 rfl)
          (fun hc => RunRes.noConfusion hc)
      · rw [hr] at h3
        refine ne_fuelOut_of_eq _ _
          (runLoop_cont oracle 2 7 "execute" s2 s3 "generate" h3 rfl) ?_
        exact final_cycle oracle 3 2 s3 (by omega)
